import Mathlib

/-
Formal model of the location-resolution and geospatial-discovery core of the
disaster-response platform, and proofs about its behaviour.

Shallow embedding conventions:
* JavaScript numbers that matter to the claims are modelled as rationals (ℚ);
  a possibly-NaN JavaScript number is `Option ℚ` with `none` for NaN.
* Timestamps are integers (milliseconds since the epoch).
* SQL NULL is `Option`; SQL three-valued logic is made explicit where the
  WHERE clauses of the PostGIS functions depend on it.
* Asynchronous calls that can reject are `Except String`.
-/

namespace DisasterPlatform

attribute [local semireducible] Rat.add Rat.mul Rat.inv Rat.ofScientific Rat.sub

/-! ### TTL cache (`backend/utils/cacheService.js`, backed by the `cache` table)

The `cache` table has `key TEXT PRIMARY KEY, value JSONB NOT NULL,
expires_at TIMESTAMPTZ NOT NULL`.  A store is a list of rows; `set` performs
the Postgres upsert on the primary key, so stores built by `set` keep key
uniqueness. -/

structure CacheRow (V : Type) where
  key : String
  value : V
  expires_at : ℤ
deriving DecidableEq

abbrev CacheStore (V : Type) := List (CacheRow V)

/-- `cacheService.get(key)`: select rows with this key and `expires_at >
now`, then `.single()` — any outcome other than exactly one row is an error,
which the service swallows and turns into `null`. -/
def cacheGet {V : Type} (store : CacheStore V) (now : ℤ) (key : String) : Option V :=
  match store.filter (fun r => r.key == key && decide (now < r.expires_at)) with
  | [r] => some r.value
  | _ => none

/-- `cacheService.set(key, value, ttl)`: upsert on the primary key with
`expires_at = now + ttl * 1000` milliseconds. -/
def cacheSet {V : Type} (store : CacheStore V) (now ttl : ℤ) (key : String) (v : V) :
    CacheStore V :=
  store.filter (fun r => !(r.key == key)) ++ [⟨key, v, now + ttl * 1000⟩]

/-- `cacheService.delete(key)`: delete every row with this key. -/
def cacheDelete {V : Type} (store : CacheStore V) (key : String) : CacheStore V :=
  store.filter (fun r => !(r.key == key))

/-- `cacheService.clearExpired()`: delete rows with `expires_at < now`. -/
def clearExpired {V : Type} (store : CacheStore V) (now : ℤ) : CacheStore V :=
  store.filter (fun r => !(decide (r.expires_at < now)))

theorem cacheGet_filter_nil {V : Type} (store : CacheStore V) (now : ℤ) (key : String)
    (h : store.filter (fun r => r.key == key && decide (now < r.expires_at)) = []) :
    cacheGet store now key = none := by
  unfold cacheGet
  rw [h]

/-- C4: a `get` after every matching row's `expires_at` has passed behaves as
a miss (`null`), even when rows with that key still sit in the store, and the
same miss is what a store with the key deleted (never set) produces. -/
theorem cacheGet_expired_behaves_as_miss {V : Type} (store : CacheStore V)
    (now : ℤ) (key : String)
    (h : ∀ r ∈ store, r.key = key → r.expires_at ≤ now) :
    cacheGet store now key = none ∧ cacheGet (cacheDelete store key) now key = none := by
  constructor
  · apply cacheGet_filter_nil
    rw [List.filter_eq_nil_iff]
    intro r hr
    simp only [Bool.and_eq_true, beq_iff_eq, decide_eq_true_eq, not_and]
    intro hk
    exact not_lt.mpr (h r hr hk)
  · apply cacheGet_filter_nil
    rw [List.filter_eq_nil_iff]
    intro r hr
    simp only [cacheDelete, List.mem_filter, Bool.not_eq_true', beq_eq_false_iff_ne] at hr
    simp only [Bool.and_eq_true, beq_iff_eq, decide_eq_true_eq, not_and]
    intro hk
    exact absurd hk hr.2

/-- Witness for C4 at a concrete store: a row for `"k"` that expired at time 5,
read at time 10. -/
theorem cacheGet_expired_behaves_as_miss_witness :
    cacheGet ([⟨"k", 1, 5⟩] : CacheStore ℕ) 10 "k" = none ∧
    cacheGet (cacheDelete ([⟨"k", 1, 5⟩] : CacheStore ℕ) "k") 10 "k" = none :=
  cacheGet_expired_behaves_as_miss [⟨"k", 1, 5⟩] 10 "k" (by decide)

/-! ### Location resolver (`backend/utils/geocodingService.js`)

`geocode(locationName)` derives a cache key
`geocode_${mappingService}_${base64(locationName)}`, consults the cache, and
on a miss calls the provider selected by the `MAPPING_SERVICE` configuration
through a `switch` on its lowercased value.  Each provider helper catches its
own network errors and returns `null`, so a provider outcome is
`Option Coordinates`. -/

/-- UTF-8 encoding of one code point (what `Buffer.from(locationName)` holds). -/
def utf8Encode (c : Char) : List ℕ :=
  let n := c.toNat
  if n < 128 then [n]
  else if n < 2048 then [192 + n / 64, 128 + n % 64]
  else if n < 65536 then [224 + n / 4096, 128 + n / 64 % 64, 128 + n % 64]
  else [240 + n / 262144, 128 + n / 4096 % 64, 128 + n / 64 % 64, 128 + n % 64]

def utf8Bytes (s : String) : List ℕ :=
  s.toList.foldr (fun c acc => utf8Encode c ++ acc) []

def base64Chars : List Char :=
  "ABCDEFGHIJKLMNOPQRSTUVWXYZabcdefghijklmnopqrstuvwxyz0123456789+/".toList

def b64Char (n : ℕ) : Char := base64Chars.getD n 'A'

/-- Standard base64 of a byte list, with `=` padding, as
`Buffer.toString('base64')` produces. -/
def base64Chunks : List ℕ → List Char
  | [] => []
  | [a] => [b64Char (a / 4), b64Char (a % 4 * 16), '=', '=']
  | [a, b] => [b64Char (a / 4), b64Char (a % 4 * 16 + b / 16), b64Char (b % 16 * 4), '=']
  | a :: b :: c :: rest =>
        b64Char (a / 4) :: b64Char (a % 4 * 16 + b / 16) ::
        b64Char (b % 16 * 4 + c / 64) :: b64Char (c % 64) :: base64Chunks rest

def base64Encode (s : String) : String := ⟨base64Chunks (utf8Bytes s)⟩

/-- Cache key: `geocode_${mappingService}_${Buffer.from(locationName).toString('base64')}`. -/
def geocodeCacheKey (mappingService locationName : String) : String :=
  "geocode_" ++ mappingService ++ "_" ++ base64Encode locationName

/-- Resolver output shape `{lat, lng, displayName}`. -/
structure Coordinates where
  lat : ℚ
  lng : ℚ
  displayName : String
deriving DecidableEq

/-- What each provider helper (`geocodeWithOpenStreetMap`,
`geocodeWithGoogleMaps`, `geocodeWithMapbox`) would answer for a location
name; `none` covers both an empty provider result and a swallowed
network/service failure. -/
structure ProviderBackends where
  openstreetmap : String → Option Coordinates
  google : String → Option Coordinates
  mapbox : String → Option Coordinates

structure GeocodeConfig where
  mappingService : String
  backends : ProviderBackends

/-- ASCII lowercasing of one character, as `String.prototype.toLowerCase`
acts on the ASCII configuration values in play. -/
def lowerAscii (c : Char) : Char :=
  if 65 ≤ c.toNat ∧ c.toNat ≤ 90 then Char.ofNat (c.toNat + 32) else c

/-- `mappingService.toLowerCase()`. -/
def toLowerCase (s : String) : String := ⟨s.toList.map lowerAscii⟩

/-- The `switch (mappingService.toLowerCase())` provider selection: `google`
and `mapbox` have their own cases; `openstreetmap` shares the `default` case. -/
def selectedProviderResult (cfg : GeocodeConfig) (locationName : String) :
    Option Coordinates :=
  if toLowerCase cfg.mappingService == "google" then cfg.backends.google locationName
  else if toLowerCase cfg.mappingService == "mapbox" then cfg.backends.mapbox locationName
  else cfg.backends.openstreetmap locationName

/-- `geocodingService.geocode(locationName)`: cache lookup, then the selected
provider; a non-null result is written to the cache (default TTL) before it
is returned, a null result is returned without touching the cache. -/
def geocode (cfg : GeocodeConfig) (store : CacheStore Coordinates) (now ttl : ℤ)
    (locationName : String) : Option Coordinates × CacheStore Coordinates :=
  match cacheGet store now (geocodeCacheKey cfg.mappingService locationName) with
  | some cached => (some cached, store)
  | none =>
    match selectedProviderResult cfg locationName with
    | some coords =>
        (some coords,
         cacheSet store now ttl (geocodeCacheKey cfg.mappingService locationName) coords)
    | none => (none, store)

/-- Provider B's answer in the spec's fallback scenario. -/
def manhattanCoords : Coordinates :=
  { lat := 40.7128, lng := -74.0060, displayName := "Manhattan, NYC" }

/-- A configuration in which the first (configured) provider fails and a
later provider knows the answer. -/
def osmFailsGoogleKnows : GeocodeConfig :=
  { mappingService := "openstreetmap",
    backends :=
      { openstreetmap := fun _ => none,
        google := fun _ => some manhattanCoords,
        mapbox := fun _ => none } }

/-- C1 counterexample: with the configured provider failing on
`"Manhattan, NYC"` and the Google provider returning `(40.7128, -74.0060)`,
an uncached `geocode` call returns `none` — it does not fall back to the
later provider's coordinates. -/
theorem geocode_no_fallback_counterexample :
    osmFailsGoogleKnows.backends.google "Manhattan, NYC" = some manhattanCoords ∧
    (geocode osmFailsGoogleKnows [] 0 3600 "Manhattan, NYC").1 = none := by
  constructor
  · rfl
  · rfl

/-- C1 (amended): on a cache miss `geocode` consults only the provider
selected by the configured mapping service and returns that provider's
result unchanged; when the configured service is neither `google` nor
`mapbox`, the answer is the OpenStreetMap backend's result no matter what the
other backends would return, so a failing selected provider is never rescued
by another provider. -/
theorem geocode_single_selected_provider (cfg : GeocodeConfig)
    (store : CacheStore Coordinates) (now ttl : ℤ) (name : String)
    (hmiss : cacheGet store now (geocodeCacheKey cfg.mappingService name) = none) :
    (geocode cfg store now ttl name).1 = selectedProviderResult cfg name ∧
    (toLowerCase cfg.mappingService ≠ "google" →
     toLowerCase cfg.mappingService ≠ "mapbox" →
      ∀ g m : String → Option Coordinates,
        (geocode ⟨cfg.mappingService, ⟨cfg.backends.openstreetmap, g, m⟩⟩
            store now ttl name).1 = cfg.backends.openstreetmap name) := by
  constructor
  · unfold geocode
    rw [hmiss]
    cases h : selectedProviderResult cfg name <;> simp [h]
  · intro hg hm g m
    unfold geocode
    rw [show (GeocodeConfig.mk cfg.mappingService
          ⟨cfg.backends.openstreetmap, g, m⟩).mappingService
        = cfg.mappingService from rfl, hmiss]
    have hsel : selectedProviderResult
        ⟨cfg.mappingService, ⟨cfg.backends.openstreetmap, g, m⟩⟩ name
        = cfg.backends.openstreetmap name := by
      unfold selectedProviderResult
      simp only [beq_iff_eq]
      rw [if_neg hg, if_neg hm]
    rw [hsel]
    cases h : cfg.backends.openstreetmap name <;> simp [h]

/-- Witness for the amended C1 at the concrete failing-provider
configuration and an empty cache. -/
theorem geocode_single_selected_provider_witness :
    (geocode osmFailsGoogleKnows [] 0 3600 "Manhattan, NYC").1
      = selectedProviderResult osmFailsGoogleKnows "Manhattan, NYC" ∧
    (toLowerCase "openstreetmap" ≠ "google" → toLowerCase "openstreetmap" ≠ "mapbox" →
      ∀ g m : String → Option Coordinates,
        (geocode ⟨"openstreetmap", ⟨fun _ => none, g, m⟩⟩ [] 0 3600 "Manhattan, NYC").1
          = (fun _ => none : String → Option Coordinates) "Manhattan, NYC") :=
  geocode_single_selected_provider osmFailsGoogleKnows [] 0 3600 "Manhattan, NYC" rfl

theorem cacheGet_cacheSet_fresh {V : Type} (store : CacheStore V) (now ttl : ℤ)
    (key : String) (v : V) (now2 : ℤ) (h : now2 < now + ttl * 1000) :
    cacheGet (cacheSet store now ttl key v) now2 key = some v := by
  unfold cacheGet cacheSet
  rw [List.filter_append]
  have h1 : (store.filter (fun r => !(r.key == key))).filter
      (fun r => r.key == key && decide (now2 < r.expires_at)) = [] := by
    rw [List.filter_eq_nil_iff]
    intro r hr
    simp only [List.mem_filter, Bool.not_eq_true', beq_eq_false_iff_ne] at hr
    simp [hr.2]
  rw [h1]
  simp [h]

/-- C5: when the cache misses, a successful resolution is written to the
cache before it is returned (so a reading at any time inside the TTL window
finds it), while a failed resolution returns `none` with the store unchanged
— no negative entry is written, so a retry reaches the providers again. -/
theorem geocode_asymmetric_caching (cfg : GeocodeConfig)
    (store : CacheStore Coordinates) (now ttl : ℤ) (name : String)
    (hmiss : cacheGet store now (geocodeCacheKey cfg.mappingService name) = none) :
    (∀ c, selectedProviderResult cfg name = some c →
       geocode cfg store now ttl name
         = (some c, cacheSet store now ttl (geocodeCacheKey cfg.mappingService name) c) ∧
       ∀ now2, now2 < now + ttl * 1000 →
         cacheGet (geocode cfg store now ttl name).2 now2
             (geocodeCacheKey cfg.mappingService name) = some c) ∧
    (selectedProviderResult cfg name = none →
       geocode cfg store now ttl name = (none, store)) := by
  constructor
  · intro c hc
    have hstep : geocode cfg store now ttl name
        = (some c, cacheSet store now ttl (geocodeCacheKey cfg.mappingService name) c) := by
      unfold geocode
      rw [hmiss, hc]
    refine ⟨hstep, ?_⟩
    intro now2 hnow2
    rw [hstep]
    exact cacheGet_cacheSet_fresh store now ttl _ c now2 hnow2
  · intro hc
    unfold geocode
    rw [hmiss, hc]

/-- Witness for C5: a provider success is cached and readable inside the TTL
window, at a concrete configuration and an empty store. -/
theorem geocode_asymmetric_caching_witness :
    (geocode ⟨"openstreetmap", ⟨fun _ => some manhattanCoords, fun _ => none, fun _ => none⟩⟩
        [] 0 3600 "Manhattan, NYC")
      = (some manhattanCoords,
         cacheSet [] 0 3600 (geocodeCacheKey "openstreetmap" "Manhattan, NYC")
           manhattanCoords) ∧
    cacheGet (geocode
        ⟨"openstreetmap", ⟨fun _ => some manhattanCoords, fun _ => none, fun _ => none⟩⟩
        [] 0 3600 "Manhattan, NYC").2 5
        (geocodeCacheKey "openstreetmap" "Manhattan, NYC") = some manhattanCoords := by
  have h := (geocode_asymmetric_caching
      ⟨"openstreetmap", ⟨fun _ => some manhattanCoords, fun _ => none, fun _ => none⟩⟩
      [] 0 3600 "Manhattan, NYC" rfl).1 manhattanCoords rfl
  exact ⟨h.1, h.2 5 (by norm_num)⟩

/-! ### Canonical point form and the geospatial RPC functions

The wire form is the WKT text `POINT(x y)`; it is modelled as the ordered
pair of the two written coordinates, `x` first.  PostGIS `ST_X` reads the
first written coordinate and `ST_Y` the second.  Geodesic distance itself is
an external PostGIS computation and is a parameter `dist` of the queries;
`ST_DWithin` and `ST_Point` keep SQL's NULL propagation explicit. -/

structure WKTPoint where
  x : ℚ
  y : ℚ
deriving DecidableEq

def st_x (p : WKTPoint) : ℚ := p.x

def st_y (p : WKTPoint) : ℚ := p.y

/-- `geocodingService.toGeographyPoint(lat, lng)` returns the text
`POINT(${lng} ${lat})` — longitude written first. -/
def toGeographyPoint (lat lng : ℚ) : WKTPoint := ⟨lng, lat⟩

/-- The `POST /api/resources` write path sets
`location: POINT(${coordinates.lng} ${coordinates.lat})`. -/
def postLocation (c : Coordinates) : WKTPoint := ⟨c.lng, c.lat⟩

/-- A row of the `resources` table; `location GEOGRAPHY` is nullable. -/
structure ResourceRow where
  id : String
  name : String
  location_name : String
  location : Option WKTPoint
  type : String
  description : Option String
  availability_status : Option String
  contact_info : Option String
  capacity : Option ℤ
  created_at : ℤ
deriving DecidableEq

/-- The row shape returned by the RPC functions: location rendered as text
plus `ST_Y` as `latitude` and `ST_X` as `longitude` (`NULL` on a `NULL`
location). -/
structure ResourceOutRow where
  id : String
  name : String
  location_name : String
  location_text : Option WKTPoint
  latitude : Option ℚ
  longitude : Option ℚ
  type : String
  description : Option String
  availability_status : Option String
  contact_info : Option String
  capacity : Option ℤ
  created_at : ℤ
deriving DecidableEq

def toOutRow (r : ResourceRow) : ResourceOutRow :=
  { id := r.id, name := r.name, location_name := r.location_name,
    location_text := r.location,
    latitude := r.location.map st_y,
    longitude := r.location.map st_x,
    type := r.type, description := r.description,
    availability_status := r.availability_status,
    contact_info := r.contact_info, capacity := r.capacity,
    created_at := r.created_at }

/-- `ST_Point(lng, lat)`: NULL when either argument is NULL. -/
def st_point : Option ℚ → Option ℚ → Option WKTPoint
  | some lng, some lat => some ⟨lng, lat⟩
  | _, _ => none

/-- `ST_DWithin(a, b, radius)` under SQL three-valued logic: NULL when any
argument is NULL, otherwise whether the distance is within the radius. -/
def st_dwithin (dist : WKTPoint → WKTPoint → ℚ) :
    Option WKTPoint → Option WKTPoint → Option ℚ → Option Bool
  | some a, some b, some r => some (decide (dist a b ≤ r))
  | _, _, _ => none

/-- A SQL `WHERE` clause keeps a row only when its condition is TRUE (not
FALSE and not NULL). -/
def sqlIsTrue : Option Bool → Bool
  | some true => true
  | _ => false

/-- `resource_type IS NULL OR r.type = resource_type`. -/
def typeMatches (resource_type : Option String) (t : String) : Bool :=
  match resource_type with
  | none => true
  | some s => t == s

/-- The `get_resources_near_point` SQL function: rows whose type matches and
whose location is within `radius_meters` of the center point. -/
def get_resources_near_point (dist : WKTPoint → WKTPoint → ℚ)
    (db : List ResourceRow) (center_lng center_lat radius_meters : Option ℚ)
    (resource_type : Option String) : List ResourceOutRow :=
  (db.filter (fun r =>
      typeMatches resource_type r.type &&
      sqlIsTrue (st_dwithin dist r.location (st_point center_lng center_lat)
        radius_meters))).map toOutRow

/-- The `get_resources_with_text_location` SQL function: the geospatial
conjunct is skipped when either center coordinate is NULL. -/
def get_resources_with_text_location (dist : WKTPoint → WKTPoint → ℚ)
    (db : List ResourceRow) (p_resource_type : Option String)
    (p_center_lat p_center_lng p_radius_meters : Option ℚ) : List ResourceOutRow :=
  (db.filter (fun r =>
      typeMatches p_resource_type r.type &&
      (p_center_lat.isNone || p_center_lng.isNone ||
        sqlIsTrue (st_dwithin dist r.location (st_point p_center_lng p_center_lat)
          p_radius_meters)))).map toOutRow

/-- The `get_resource_with_text_location` SQL function. -/
def get_resource_with_text_location (db : List ResourceRow)
    (p_resource_id : String) : List ResourceOutRow :=
  (db.filter (fun r => r.id == p_resource_id)).map toOutRow

theorem toOutRow_injective : Function.Injective toOutRow := by
  intro a b h
  cases a
  cases b
  simp only [toOutRow, ResourceOutRow.mk.injEq] at h
  simp only [ResourceRow.mk.injEq]
  exact ⟨h.1, h.2.1, h.2.2.1, h.2.2.2.1, h.2.2.2.2.2.2.1, h.2.2.2.2.2.2.2.1,
    h.2.2.2.2.2.2.2.2.1, h.2.2.2.2.2.2.2.2.2.1, h.2.2.2.2.2.2.2.2.2.2⟩

/-- C6: a resource whose `location` is NULL is excluded from every
`get_resources_near_point` query (any center, radius and type filter), yet
the centerless `get_resources_with_text_location` listing whose type filter
matches it still returns it. -/
theorem null_location_excluded_from_radius_but_listed
    (dist : WKTPoint → WKTPoint → ℚ) (db : List ResourceRow)
    (center_lng center_lat radius_meters : Option ℚ) (ty : Option String)
    (r : ResourceRow) (hmem : r ∈ db) (hnull : r.location = none)
    (hty : typeMatches ty r.type = true) :
    toOutRow r ∉ get_resources_near_point dist db center_lng center_lat radius_meters ty ∧
    toOutRow r ∈ get_resources_with_text_location dist db ty none none none := by
  constructor
  · intro hin
    unfold get_resources_near_point at hin
    obtain ⟨r', hr', heq⟩ := List.mem_map.mp hin
    have : r' = r := toOutRow_injective heq
    subst this
    have hpred := (List.mem_filter.mp hr').2
    rw [hnull] at hpred
    simp [st_dwithin, sqlIsTrue] at hpred
  · unfold get_resources_with_text_location
    apply List.mem_map.mpr
    refine ⟨r, List.mem_filter.mpr ⟨hmem, ?_⟩, rfl⟩
    simp [hty]

/-- The sample unresolved-location row used by the C6 witness. -/
def unresolvedShelter : ResourceRow :=
  ⟨"r0", "Shelter A", "Manhattan, NYC", none, "shelter", none, none, none, none, 0⟩

theorem null_location_excluded_from_radius_but_listed_witness :
    toOutRow unresolvedShelter ∉ get_resources_near_point (fun _ _ => 0)
        [unresolvedShelter] (some (-74)) (some 40.7) (some 10000) (some "shelter") ∧
    toOutRow unresolvedShelter ∈ get_resources_with_text_location (fun _ _ => 0)
        [unresolvedShelter] (some "shelter") none none none :=
  null_location_excluded_from_radius_but_listed (fun _ _ => 0)
    [unresolvedShelter] (some (-74)) (some 40.7) (some 10000) (some "shelter")
    unresolvedShelter (by simp) rfl rfl

/-- C7: the producer writes the point longitude-first — `toGeographyPoint`
and the create route's `resourceData.location` agree on `POINT(lng lat)` —
and the consumer reads `ST_X` back as longitude and `ST_Y` as latitude, so a
coordinate pair survives the round trip: a row stored with
`toGeographyPoint lat lng` is projected by the query functions to
`latitude = lat` and `longitude = lng`. -/
theorem point_axis_order_agreement (lat lng : ℚ) (dn : String) :
    toGeographyPoint lat lng = postLocation { lat := lat, lng := lng, displayName := dn } ∧
    st_x (toGeographyPoint lat lng) = lng ∧
    st_y (toGeographyPoint lat lng) = lat ∧
    ∀ r : ResourceRow,
      (toOutRow { r with location := some (toGeographyPoint lat lng) }).latitude
          = some lat ∧
      (toOutRow { r with location := some (toGeographyPoint lat lng) }).longitude
          = some lng := by
  exact ⟨rfl, rfl, rfl, fun r => ⟨rfl, rfl⟩⟩

/-! ### Viewer reconciler (`resources_updated` socket handlers)

Both the resources page and the disaster-detail page apply an incoming
`resources_updated` event to their local resource list the same way:
`create` does `[...prev, data.resource]`, `update` does
`prev.map(r => r.id === data.resource.id ? data.resource : r)` and `delete`
does `prev.filter(r => r.id !== data.resource_id)`.  Entity payloads beyond
the identifier are opaque to the handler. -/

structure REntity where
  id : String
  payload : String
deriving DecidableEq

inductive REvent where
  | create (resource : REntity)
  | update (resource : REntity)
  | delete (resource_id : String)
deriving DecidableEq

def applyResourcesUpdated (prev : List REntity) : REvent → List REntity
  | .create r => prev ++ [r]
  | .update r => prev.map (fun x => if x.id == r.id then r else x)
  | .delete rid => prev.filter (fun x => !(x.id == rid))

/-- C2 counterexample: delivering the same `create` event twice for id `"X"`
to an initially empty list leaves two entries with id `"X"`, not exactly
one — the handler appends without checking for a present id. -/
theorem reconciler_create_duplicates_counterexample :
    (applyResourcesUpdated
        (applyResourcesUpdated [] (.create ⟨"X", "Shelter A"⟩))
        (.create ⟨"X", "Shelter A"⟩)).countP (fun e => e.id == "X") = 2 := by
  decide

/-- C2 (amended): the `create` handler appends the entity unconditionally,
with no duplicate-id check, so each delivery of the same `create` event adds
one more entry with that id: after two deliveries the list holds two more
entries with the entity's id than before. -/
theorem reconciler_create_appends_unconditionally (prev : List REntity) (r : REntity) :
    applyResourcesUpdated prev (.create r) = prev ++ [r] ∧
    (applyResourcesUpdated (applyResourcesUpdated prev (.create r))
        (.create r)).countP (fun e => e.id == r.id)
      = prev.countP (fun e => e.id == r.id) + 2 := by
  refine ⟨rfl, ?_⟩
  show ((prev ++ [r]) ++ [r]).countP (fun e => e.id == r.id)
      = prev.countP (fun e => e.id == r.id) + 2
  simp [List.countP_append, List.countP_cons]

/-- C3 counterexample: an `update` event for id `"X"` delivered to a list
with no entry of that id does not insert the entity — the list stays empty. -/
theorem reconciler_update_no_insert_counterexample :
    applyResourcesUpdated [] (.update ⟨"X", "Shelter A"⟩) = [] ∧
    (⟨"X", "Shelter A"⟩ : REntity) ∉ applyResourcesUpdated [] (.update ⟨"X", "Shelter A"⟩) := by
  decide

/-- C3 (amended): the `update` handler maps over the list replacing entries
whose id matches; when no entry has the event's id the list is unchanged (the
entity is not inserted), and an update never changes the list's length. -/
theorem reconciler_update_replaces_only (prev : List REntity) (r : REntity)
    (h : ∀ x ∈ prev, x.id ≠ r.id) :
    applyResourcesUpdated prev (.update r) = prev ∧
    ∀ prev2 : List REntity,
      (applyResourcesUpdated prev2 (.update r)).length = prev2.length := by
  constructor
  · show prev.map (fun x => if x.id == r.id then r else x) = prev
    induction prev with
    | nil => rfl
    | cons x xs ih =>
      have hx : (x.id == r.id) = false :=
        beq_eq_false_iff_ne.mpr (h x (List.mem_cons_self x xs))
      simp only [List.map_cons, hx, Bool.false_eq_true, if_false, List.cons.injEq,
        true_and]
      exact ih (fun y hy => h y (List.mem_cons_of_mem x hy))
  · intro prev2
    show (prev2.map (fun x => if x.id == r.id then r else x)).length = prev2.length
    exact List.length_map prev2 _

/-- Witness for the amended C3 at a concrete one-element list whose entry has
a different id from the event's entity. -/
theorem reconciler_update_replaces_only_witness :
    applyResourcesUpdated [⟨"Y", "Hospital"⟩] (.update ⟨"X", "Shelter A"⟩)
        = [⟨"Y", "Hospital"⟩] ∧
    ∀ prev2 : List REntity,
      (applyResourcesUpdated prev2 (.update ⟨"X", "Shelter A"⟩)).length
        = prev2.length :=
  reconciler_update_replaces_only [⟨"Y", "Hospital"⟩] ⟨"X", "Shelter A"⟩ (by decide)

/-! ### Route handlers (`backend/routes/resources.js`)

JavaScript `parseFloat` never throws: a malformed number yields `NaN`
(modelled as `none`).  `supabase.rpc` serialises its arguments as JSON, and
`JSON.stringify` turns `NaN` into `null`, so a `NaN` parameter reaches the
SQL function as NULL.  JavaScript truthiness on an optional string treats
both an absent value and the empty string as falsy. -/

def jsTruthy : Option String → Bool
  | none => false
  | some s => !(s == "")

def digitVal (c : Char) : Option ℕ :=
  if c.isDigit then some (c.toNat - 48) else none

def takeDigits : List Char → List ℕ × List Char
  | [] => ([], [])
  | c :: cs =>
    match digitVal c with
    | some d => (d :: (takeDigits cs).1, (takeDigits cs).2)
    | none => ([], c :: cs)

def digitsToNat (ds : List ℕ) : ℕ := ds.foldl (fun a d => a * 10 + d) 0

def fracValue (ds : List ℕ) : ℚ := ds.foldr (fun d a => (d + a) / 10) 0

/-- Model of JavaScript `parseFloat`: optional leading whitespace and sign,
then integer digits, an optional decimal point and fraction digits; trailing
non-numeric text is ignored; no digits at all gives `NaN` (`none`).
(Exponent and `Infinity` forms are not exercised by the routes and are left
out.) -/
def parseFloat (s : String) : Option ℚ :=
  let cs := s.toList.dropWhile Char.isWhitespace
  let signed : ℚ × List Char :=
    match cs with
    | '-' :: rest => (-1, rest)
    | '+' :: rest => (1, rest)
    | _ => (1, cs)
  let (ip, rest) := takeDigits signed.2
  let fp : List ℕ :=
    match rest with
    | '.' :: rest2 => (takeDigits rest2).1
    | _ => []
  if ip.isEmpty && fp.isEmpty then none
  else some (signed.1 * ((digitsToNat ip : ℚ) + fracValue fp))

/-- NaN propagation through `parseFloat(radius) * 1000`. -/
def nanMul (a : Option ℚ) (b : ℚ) : Option ℚ := a.map (· * b)

/-- Response of `GET /api/resources`; in the model the Supabase RPC call
returns data rather than an error, so only the 200 path is inhabited, but
the constructors mirror the handler's possible responses. -/
inductive GetResourcesResponse where
  | ok (rows : List ResourceOutRow)
  | badRequest (msg : String)
  | dbError (msg : String)
deriving DecidableEq

/-- `GET /api/resources`: when `lat` and `lng` are truthy the handler parses
them and the radius with `parseFloat` (radius defaults to `10`) and invokes
the `get_resources_near_point` RPC; `NaN` arguments reach SQL as NULL.  The
`catch` that answers 400 `Invalid location format` can only fire on a thrown
exception, and `parseFloat` never throws, so no malformed number reaches it.
Without a center the handler invokes `get_resources_with_text_location` with
NULL center parameters. -/
def getResources (dist : WKTPoint → WKTPoint → ℚ) (db : List ResourceRow)
    (lat lng radius ty : Option String) : GetResourcesResponse :=
  if jsTruthy lat && jsTruthy lng then
    let latitude := parseFloat (lat.getD "")
    let longitude := parseFloat (lng.getD "")
    let radiusMeters := nanMul (parseFloat (radius.getD "10")) 1000
    .ok (get_resources_near_point dist db longitude latitude radiusMeters ty)
  else
    .ok (get_resources_with_text_location dist db ty none none none)

/-- A resolved shelter sitting at the query center (the parametric distance
function used with it reports distance 0). -/
def resolvedShelter : ResourceRow :=
  ⟨"r1", "Shelter A", "Manhattan, NYC", some ⟨-74, 40.7⟩, "shelter",
    none, none, none, none, 0⟩

/-- C9: a malformed radius is not rejected with a 400 — `parseFloat` yields
`NaN` instead of throwing, the RPC is still invoked with a NULL
`radius_meters`, and the handler answers 200 with an empty list, although the
same request with a well-formed radius returns the in-range row. -/
theorem malformed_radius_reaches_query_engine :
    parseFloat "abc" = none ∧
    getResources (fun _ _ => 0) [resolvedShelter]
        (some "40.7") (some "-74.0") (some "abc") none = .ok [] ∧
    getResources (fun _ _ => 0) [resolvedShelter]
        (some "40.7") (some "-74.0") (some "5") none
      = .ok [toOutRow resolvedShelter] := by
  refine ⟨rfl, ?_, ?_⟩ <;> decide

/-! ### `PUT /api/resources/:id` (the re-geocode branch)

The existence check runs `.select('id')`, so the fetched `existingResource`
carries only the `id` column and `existingResource.location_name` evaluates
to `undefined`.  The branch condition is
`location_name && location_name !== existingResource.location_name`. -/

/-- The `location_name` column as visible on the row returned by
`.select('id')`: absent, i.e. `undefined`. -/
def existingSelectedLocationName (_ : ResourceRow) : Option String := none

/-- JavaScript strict inequality `!==` between a possibly-undefined string
and a possibly-undefined string. -/
def jsStrictNeq : Option String → Option String → Bool
  | some a, some b => !(a == b)
  | none, none => false
  | _, _ => true

/-- The parts of `updateData` the claim is about, plus whether the handler
called the geocoder at all. -/
structure PutUpdateData where
  location_name : Option String
  location : Option WKTPoint
  geocodeCalled : Bool
deriving DecidableEq

inductive PutLocationOutcome where
  | proceed (u : PutUpdateData)
  | invalidLocation (locationName : String)
  | geocodingError (msg : String)
deriving DecidableEq

/-- The location branch of the update handler: when the condition holds it
geocodes the submitted name and places `POINT(lng lat)` into `updateData`;
a null geocode answers 400, a thrown geocode answers 500; otherwise
`updateData` gets no location fields and the geocoder is not called. -/
def putLocationBranch (stored : ResourceRow) (location_name : Option String)
    (geo : String → Except String (Option Coordinates)) : PutLocationOutcome :=
  if jsTruthy location_name &&
     jsStrictNeq location_name (existingSelectedLocationName stored) then
    match geo (location_name.getD "") with
    | .ok (some c) =>
        .proceed ⟨location_name, some ⟨c.lng, c.lat⟩, true⟩
    | .ok none => .invalidLocation (location_name.getD "")
    | .error e => .geocodingError e
  else .proceed ⟨none, none, false⟩

/-- Applying `updateData` to the stored row: a column absent from
`updateData` keeps its stored value. -/
def applyPutUpdate (stored : ResourceRow) (u : PutUpdateData) : ResourceRow :=
  { stored with
    location_name := u.location_name.getD stored.location_name,
    location := match u.location with | some p => some p | none => stored.location }

/-- A stored resource whose point was resolved at creation time. -/
def storedShelter : ResourceRow :=
  ⟨"r1", "Shelter A", "Manhattan, NYC", some ⟨-74, 40.7⟩, "shelter",
    none, none, none, none, 0⟩

/-- The (changed) answer the geocoder gives when the same name is resolved
again later. -/
def reGeocodedCoords : Coordinates :=
  { lat := 40.7128, lng := -74.0060, displayName := "Manhattan, New York County" }

/-- C8 at its failing input: an update resubmitting the stored resource's own
`location_name` unchanged still triggers geocoding — the existence check
selected only `id`, so the comparison is against `undefined` — and the stored
point is overwritten with the fresh geocode answer.  Only a falsy (absent or
empty) `location_name` skips resolution. -/
theorem unchanged_location_name_still_regeocoded :
    (some storedShelter.location_name = some "Manhattan, NYC" ∧
     putLocationBranch storedShelter (some "Manhattan, NYC")
         (fun _ => .ok (some reGeocodedCoords))
       = .proceed ⟨some "Manhattan, NYC", some ⟨-74.0060, 40.7128⟩, true⟩) ∧
    (applyPutUpdate storedShelter
        ⟨some "Manhattan, NYC", some ⟨-74.0060, 40.7128⟩, true⟩).location
      ≠ storedShelter.location ∧
    putLocationBranch storedShelter none (fun _ => .ok (some reGeocodedCoords))
      = .proceed ⟨none, none, false⟩ := by
  refine ⟨⟨rfl, ?_⟩, by decide, rfl⟩
  decide

/-! ### `POST /api/resources` -/

/-- The request body fields the create handler validates. -/
structure CreateRequestBody where
  name : Option String
  location_name : Option String
  type : Option String
deriving DecidableEq

/-- Externally observable effects of the create handler: the response status,
whether a row was inserted, and whether a `resources_updated` broadcast was
emitted. -/
structure PostEffects where
  status : ℕ
  inserted : Bool
  emitted : Bool
deriving DecidableEq

/-- `POST /api/resources`: role gate (403), required-field validation (400),
geocoding — a thrown geocode answers 500 and a null geocode 400, both before
any insert — then the insert (500 on error), the refetch of the created row
(500 on error, after the insert but before any emit), and only then the
`resources_updated` broadcast and the 201 response. -/
def postResource (role : String) (body : CreateRequestBody)
    (geo : Except String (Option Coordinates))
    (insertOk : Bool) (fetchOk : Bool) : PostEffects :=
  if !(role == "admin") && !(role == "contributor") then ⟨403, false, false⟩
  else if !(jsTruthy body.name) || !(jsTruthy body.location_name) || !(jsTruthy body.type)
    then ⟨400, false, false⟩
  else
    match geo with
    | .error _ => ⟨500, false, false⟩
    | .ok none => ⟨400, false, false⟩
    | .ok (some _) =>
      if !insertOk then ⟨500, false, false⟩
      else if !fetchOk then ⟨500, true, false⟩
      else ⟨201, true, true⟩

/-- C10: when geocoding does not produce coordinates (it throws or returns
null) the create handler answers an error status and neither inserts a row
nor emits a broadcast — and in every run of the handler an emitted broadcast
implies the insert succeeded and the response is 201. -/
theorem post_atomic_on_geocode_failure (role : String) (body : CreateRequestBody)
    (geo : Except String (Option Coordinates)) (insertOk fetchOk : Bool)
    (hfail : ∀ c, geo ≠ .ok (some c)) :
    (400 ≤ (postResource role body geo insertOk fetchOk).status ∧
     (postResource role body geo insertOk fetchOk).inserted = false ∧
     (postResource role body geo insertOk fetchOk).emitted = false) ∧
    ∀ (role2 : String) (body2 : CreateRequestBody)
      (geo2 : Except String (Option Coordinates)) (i2 f2 : Bool),
      (postResource role2 body2 geo2 i2 f2).emitted = true →
        (postResource role2 body2 geo2 i2 f2).inserted = true ∧
        (postResource role2 body2 geo2 i2 f2).status = 201 := by
  constructor
  · unfold postResource
    split
    · exact ⟨by norm_num, rfl, rfl⟩
    · split
      · exact ⟨by norm_num, rfl, rfl⟩
      · match geo, hfail with
        | .error e, _ => exact ⟨by norm_num, rfl, rfl⟩
        | .ok none, _ => exact ⟨by norm_num, rfl, rfl⟩
        | .ok (some c), hfail => exact absurd rfl (hfail c)
  · intro role2 body2 geo2 i2 f2
    unfold postResource
    split
    · intro h; exact absurd h (by simp)
    · split
      · intro h; exact absurd h (by simp)
      · match geo2 with
        | .error e => intro h; exact absurd h (by simp)
        | .ok none => intro h; exact absurd h (by simp)
        | .ok (some c) =>
          cases i2 with
          | false => intro h; exact absurd h (by simp)
          | true =>
            cases f2 with
            | false => intro h; exact absurd h (by simp)
            | true => intro _; exact ⟨rfl, rfl⟩

/-- Witness for C10 at a concrete failing geocode (`null` coordinates) with
an otherwise valid authorized request. -/
theorem post_atomic_on_geocode_failure_witness :
    (400 ≤ (postResource "contributor"
        ⟨some "Shelter A", some "Nowhere", some "shelter"⟩
        (.ok none) true true).status ∧
     (postResource "contributor" ⟨some "Shelter A", some "Nowhere", some "shelter"⟩
        (.ok none) true true).inserted = false ∧
     (postResource "contributor" ⟨some "Shelter A", some "Nowhere", some "shelter"⟩
        (.ok none) true true).emitted = false) ∧
    ∀ (role2 : String) (body2 : CreateRequestBody)
      (geo2 : Except String (Option Coordinates)) (i2 f2 : Bool),
      (postResource role2 body2 geo2 i2 f2).emitted = true →
        (postResource role2 body2 geo2 i2 f2).inserted = true ∧
        (postResource role2 body2 geo2 i2 f2).status = 201 :=
  post_atomic_on_geocode_failure "contributor"
    ⟨some "Shelter A", some "Nowhere", some "shelter"⟩ (.ok none) true true
    (fun c h => by cases h)

end DisasterPlatform
